import Mathlib

/-!
Shallow embedding of the layer-composition engine of the WebGIS map
generation tool (sources: Generators/FCCTower.py and
Organization/FCCTowerExtraction.py).  Pure Python helpers become Lean
functions; the per-region map build `create_map_fcc_towers` becomes a pure
function from the loaded datasets (plus the stream of pseudo-random draws
consumed by `get_wisp_color`) to the ordered list of overlay layers added to
the map, or to a runtime error when the build crashes.
-/

namespace WebGisMap

/-- ASCII lowercasing of a string, modelling Python `str.lower()` on the
ASCII data that flows through this program. -/
def pyLower (s : String) : String :=
  String.mk (s.data.map Char.toLower)

/-- Leading/trailing-whitespace removal, modelling Python `str.strip()`. -/
def pyStrip (s : String) : String :=
  String.mk (((s.data.dropWhile Char.isWhitespace).reverse.dropWhile
    Char.isWhitespace).reverse)

/-- Substring test, modelling the Python expression `pat in s`. -/
def containsSub (pat s : String) : Bool :=
  s.data.tails.any (fun t => pat.data.isPrefixOf t)

/-! ## Entity classifier (Organization/FCCTowerExtraction.py, `categorize_entity`) -/

/-- American Tower patterns of `categorize_entity`. -/
def american_patterns : List String := ["american tower", "amt", "american towers"]

/-- SBA patterns of `categorize_entity`. -/
def sba_patterns : List String := ["sba", "sba communications", "sba comm"]

/-- Crown Castle patterns of `categorize_entity`. -/
def crown_patterns : List String := ["crown castle", "crown", "ccic"]

/-- The `any(pattern in entity_lower for pattern in [...])` test of the
American Tower branch. -/
def american_match (entity_lower : String) : Bool :=
  american_patterns.any (fun p => containsSub p entity_lower)

/-- The pattern test of the SBA branch. -/
def sba_match (entity_lower : String) : Bool :=
  sba_patterns.any (fun p => containsSub p entity_lower)

/-- The pattern test of the Crown Castle branch. -/
def crown_match (entity_lower : String) : Bool :=
  crown_patterns.any (fun p => containsSub p entity_lower)

/-- `categorize_entity` from FCCTowerExtraction.py: `none` models a missing
(`pd.isna`) entity name; otherwise the lowercased name is tested against the
three pattern lists in priority order, first match wins, else "Other". -/
def categorize_entity : Option String → String
  | none => "Other"
  | some entity_name =>
    let entity_lower := pyLower entity_name
    if american_match entity_lower then
      "American Towers"
    else if sba_match entity_lower then
      "SBA"
    else if crown_match entity_lower then
      "Crown Castle"
    else
      "Other"

/-! ## Density buckets (Generators/FCCTower.py, `range_dict`) -/

/-- `range_dict` of `create_map_fcc_towers`, in insertion order: for each
bucket its `(min, max)` range (min inclusive, max exclusive) and fill color. -/
def range_dict : List (Nat × Nat × String) :=
  [ (1, 5, "#e4e4f3"),
    (5, 10, "#d1d1ea"),
    (10, 20, "#b3b3e0"),
    (20, 30, "#8080c5"),
    (30, 50, "#6d6dbd"),
    (50, 75, "#4949ac"),
    (75, 100, "#3737a4"),
    (100, 50000, "#121293") ]

/-- Indices of the buckets of `range_dict` whose range a given `point_count`
satisfies (`point_count >= rng_min and point_count < rng_max`, exactly the
subset filter of the grid-analysis loop). -/
def matchingBuckets (c : Nat) : List Nat :=
  range_dict.enum.filterMap (fun e =>
    if e.2.1 ≤ c ∧ c < e.2.2.1 then some e.1 else none)

/-- The spec's `bucketAssign`: the (first) bucket index whose range contains
the count, none when no bucket of `range_dict` matches. -/
def bucketAssign (c : Nat) : Option Nat :=
  (matchingBuckets c).head?

/-! ## WISP overlay colors (Generators/FCCTower.py, `get_wisp_color`) -/

/-- The `wisp_colors` dictionary of `get_wisp_color`, in insertion order. -/
def wisp_colors : List (String × String) :=
  [ ("AT&T", "#009FDB"),
    ("T-Mobile", "#E20074"),
    ("Verizon", "#E81123"),
    ("Mediacom Bolt", "#0033A0"),
    ("Point Broadband", "#F89728"),
    ("Cloud 9 Wireless", "#6BACE4"),
    ("Dragonfly Internet", "#FF5733"),
    ("Rapid Wireless LLC", "#28A745"),
    ("Wildstar Networks", "#8E44AD") ]

/-- The dictionary part of `get_wisp_color`: the color of the first key with
`key.lower() in wisp_name.lower().strip()`, if any. -/
def wisp_color_match (wisp_name : String) : Option String :=
  (wisp_colors.find? (fun kv =>
    containsSub (pyLower kv.1) (pyStrip (pyLower wisp_name)))).map (fun kv => kv.2)

/-- The fallback branch of `get_wisp_color`: the six-digit zero-padded
lowercase hexadecimal color of one draw of the pseudo-random stream, as
Python formats random.randint(0, 0xFFFFFF) with a 06x conversion. -/
def formatHexColor (n : Nat) : String :=
  let ds := Nat.toDigits 16 n
  String.mk (('#' :: List.replicate (6 - ds.length) '0') ++ ds)

/-- `get_wisp_color`, with the pseudo-random draw it may consume made an
explicit argument. -/
def get_wisp_color (wisp_name : String) (draw : Nat) : String :=
  match wisp_color_match wisp_name with
  | some c => c
  | none => formatHexColor (draw % 16777216)

/-! ## Layer model -/

/-- One overlay layer added to the Folium map: its control name, whether the
`show` flag was set, and its principal style color. -/
structure LayerSpec where
  name : String
  visible : Bool
  color : String
deriving DecidableEq, Repr

/-- An infrastructure record as loaded from the antenna file: its
`grouped_entity` category and coordinates. -/
structure Tower where
  grouped_entity : String
  lat : Rat
  lon : Rat
deriving DecidableEq, Repr

/-- A coverage circle added to a Folium feature group: center and stroke
color (its radius is `ring_radius_m` of the center latitude and the mile
distance). -/
structure MCircle where
  lat : Rat
  lon : Rat
  color : String
deriving DecidableEq, Repr

/-- The datasets `create_map_fcc_towers` works from after loading: `none`
for an optional source means the file was absent, `some` carries the loaded
records. -/
structure MapInputs where
  state_name : String
  county_names : List String
  round1 : List (Rat × Rat)
  round2 : Option (List (Rat × Rat))
  cai : Option (List (Rat × Rat))
  cci_ds : Option Nat
  cci_fiber : Option Nat
  grid_counts : List Nat
  wisp_names : List String
  towers : Option (List Tower)

/-- `add_bead_locations_layer`: returns no layer for an empty dataset, else
one clustered marker layer with the given name and flags. -/
def add_bead_locations_layer (locations_data : List (Rat × Rat))
    (layer_name : String) (color : String) (vis : Bool) : List LayerSpec :=
  if locations_data.isEmpty then [] else [⟨layer_name, vis, color⟩]

/-- The Round-1 layer name chosen at step 7 of `create_map_fcc_towers`: a
qualified name when Round-2 or CAI data is present, the plain name otherwise. -/
def round1_layer_name (inp : MapInputs) : String :=
  if inp.round2.isSome || inp.cai.isSome then
    "BEAD Eligible Locations Round 1"
  else
    "BEAD Eligible Locations"

/-- The BEAD point layers of steps 7 of `create_map_fcc_towers`, in the
order they are added to the map. -/
def bead_layers (inp : MapInputs) : List LayerSpec :=
  add_bead_locations_layer inp.round1 (round1_layer_name inp) "#01fbff" true
  ++ (match inp.round2 with
      | some l => add_bead_locations_layer l "BEAD Eligible Locations Round 2" "#01fbff" false
      | none => [])
  ++ (match inp.cai with
      | some l => add_bead_locations_layer l "BEAD Eligible CAIs" "#01fbff" false
      | none => [])

/-- `add_cci_layers` guarded by the Maine-only condition of step 8. -/
def add_cci_layers (inp : MapInputs) : List LayerSpec :=
  if pyLower inp.state_name == "maine" && (inp.cci_ds.isSome || inp.cci_fiber.isSome) then
    (match inp.cci_ds with
     | some _ => [⟨"CCI DSL", false, "#FF6B35"⟩]
     | none => [])
    ++ (match inp.cci_fiber with
        | some _ => [⟨"CCI Fiber", false, "#4ECDC4"⟩]
        | none => [])
  else []

/-- The control name of a grid-analysis layer as formatted at step 9. -/
def grid_layer_name (rng_min rng_max : Nat) : String :=
  if rng_min == 100 then
    "Grid Layer (" ++ toString rng_min ++ "+ Locations)"
  else
    "Grid Layer (" ++ toString rng_min ++ "-" ++ toString rng_max ++ " Locations)"

/-- The grid-analysis layers of step 9: one dissolved layer per bucket of
`range_dict` whose subset of density cells is non-empty, in dictionary
order. -/
def grid_analysis_layers (counts : List Nat) : List LayerSpec :=
  range_dict.filterMap (fun e =>
    if (counts.filter (fun pc => decide (e.1 ≤ pc ∧ pc < e.2.1))).length = 0 then
      none
    else
      some ⟨grid_layer_name e.1 e.2.1, false, e.2.2⟩)

/-- The bucket minima of the non-empty grid buckets, in the order their
layers are emitted. -/
def grid_layer_mins (counts : List Nat) : List Nat :=
  range_dict.filterMap (fun e =>
    if (counts.filter (fun pc => decide (e.1 ≤ pc ∧ pc < e.2.1))).length = 0 then
      none
    else
      some e.1)

/-- All grid-layer control names a build can ever emit, one per bucket of
`range_dict`. -/
def grid_name_list : List String :=
  range_dict.map (fun e => grid_layer_name e.1 e.2.1)

/-- `add_wisp_layers`: one layer per `.sqlite` file of the WISP folder, in
directory-listing order; an unmatched name consumes one pseudo-random draw
from the stream. -/
def add_wisp_layers : List String → List Nat → List LayerSpec
  | [], _ => []
  | n :: ns, stream =>
    match wisp_color_match n with
    | some c =>
      ⟨"WISP - " ++ n, false, c⟩ :: add_wisp_layers ns stream
    | none =>
      ⟨"WISP - " ++ n, false, formatHexColor (stream.headD 0 % 16777216)⟩
        :: add_wisp_layers ns stream.tail

/-! ## Antenna block (step 11 of `create_map_fcc_towers`) -/

/-- `antenna_data[antenna_data['grouped_entity'] == "American Towers"]`. -/
def american_tower_data (ts : List Tower) : List Tower :=
  ts.filter (fun t => t.grouped_entity == "American Towers")

/-- `antenna_data[antenna_data['grouped_entity'] == "SBA"]`. -/
def sba_tower_data (ts : List Tower) : List Tower :=
  ts.filter (fun t => t.grouped_entity == "SBA")

/-- `antenna_data[antenna_data['grouped_entity'] == "Crown Castle"]`. -/
def crown_castle_tower_data (ts : List Tower) : List Tower :=
  ts.filter (fun t => t.grouped_entity == "Crown Castle")

/-- `antenna_data[antenna_data['grouped_entity'] == "Other"]`. -/
def other_tower_data (ts : List Tower) : List Tower :=
  ts.filter (fun t => t.grouped_entity == "Other")

/-- Contents of the aggregate `fg_coverage2` group ("Antenna Coverage
(2 Miles)"): the loop over all antenna rows adds one green 2-mile circle per
record. -/
def fg_coverage2_circles (ts : List Tower) : List MCircle :=
  ts.map (fun t => ⟨t.lat, t.lon, "green"⟩)

/-- Contents of the aggregate `fg_coverage5` group ("Antenna Coverage
(5 Miles)"): one blue 5-mile circle per record. -/
def fg_coverage5_circles (ts : List Tower) : List MCircle :=
  ts.map (fun t => ⟨t.lat, t.lon, "blue"⟩)

/-- The twelve per-category antenna feature groups, in exactly the order the
code adds them to the map (marker group, 2-mile rings, 5-mile rings, for
Other, American Towers, SBA, Crown Castle).  They are added whenever the
script reaches that point, regardless of how many records each category
holds. -/
def antenna_layers : List LayerSpec :=
  [ ⟨"Antenna Locations - Other", false, "blue"⟩,
    ⟨"Other - Coverage 2 Mile", false, "blue"⟩,
    ⟨"Other - Coverage 5 Mile", false, "blue"⟩,
    ⟨"Antenna Locations - American Towers", false, "red"⟩,
    ⟨"American Towers - Coverage 2 Mile", false, "red"⟩,
    ⟨"American Towers - Coverage 5 Mile", false, "red"⟩,
    ⟨"Antenna Locations - SBA Towers", false, "purple"⟩,
    ⟨"SBA Towers - Coverage 2 Mile", false, "purple"⟩,
    ⟨"SBA Towers - Coverage 5 Mile", false, "purple"⟩,
    ⟨"Antenna Locations - Crown Castle Towers", false, "orange"⟩,
    ⟨"Crown Castle - Coverage 2 Mile", false, "orange"⟩,
    ⟨"Crown Castle - Coverage 5 Mile", false, "orange"⟩ ]

/-- The two boundary layers of steps 5 and 6. -/
def boundary_layers : List LayerSpec :=
  [⟨"State Outline", true, "red"⟩, ⟨"County Outline", true, "blue"⟩]

/-- The error raised when the antenna file is absent: the feature groups
referenced by the unconditional `add_to` block after the antenna section
were never assigned. -/
def unbound_local_fg_antennas : String :=
  "UnboundLocalError: local variable fg_antennas referenced before assignment"

/-- The overlay-layer composition of `create_map_fcc_towers`, as a function
of the loaded datasets and of the stream of pseudo-random draws consumed by
`get_wisp_color`.  When no antenna file is supplied, the unconditional
`fg_antennas.add_to(m)` block dereferences a local that was only assigned
inside the antenna branch, so the run aborts before the map is saved. -/
def create_map_fcc_towers (inp : MapInputs) (stream : List Nat) :
    Except String (List LayerSpec) :=
  match inp.towers with
  | none => Except.error unbound_local_fg_antennas
  | some _ =>
    Except.ok (
      boundary_layers
      ++ bead_layers inp
      ++ add_cci_layers inp
      ++ grid_analysis_layers inp.grid_counts
      ++ add_wisp_layers inp.wisp_names stream
      ++ antenna_layers)

/-- The control names of the layers of a build, the empty list when the
build aborted. -/
def namesOf : Except String (List LayerSpec) → List String
  | Except.ok l => l.map (fun s => s.name)
  | Except.error _ => []

/-- The observable shape of a build that ignores style colors: the
(name, visibility) pairs of its layers. -/
def shapeOf : Except String (List LayerSpec) → Except String (List (String × Bool))
  | Except.ok l => Except.ok (l.map (fun s => (s.name, s.visible)))
  | Except.error e => Except.error e

/-! ## CBRS join (load_cbrs_data_filtered and the county popup loop) -/

/-- One row of the CBRS license spreadsheet, restricted to the columns the
loader reads. -/
structure CbrsRecord where
  channel : String
  county_name : String
  bidder : String
  state_abbr : String
deriving DecidableEq, Repr

/-- The state filter of `load_cbrs_data_filtered`. -/
def cbrs_state_filter (recs : List CbrsRecord) (ab : String) : List CbrsRecord :=
  recs.filter (fun r => r.state_abbr == ab)

/-- The per-county group of the `groupby("county_name")` dictionary, as the
county popup loop reads it with `cbrs_data.get(county_name, [])`: the
records with that county name, in source order. -/
def cbrs_group (recs : List CbrsRecord) (county : String) : List CbrsRecord :=
  recs.filter (fun r => r.county_name == county)

/-- The per-county CBRS popup tables built by the county loop of
`create_map_fcc_towers`: one entry per boundary polygon, pairing the county
name with its joined records. -/
def county_popups (counties : List String) (recs : List CbrsRecord) :
    List (String × List CbrsRecord) :=
  counties.map (fun c => (c, cbrs_group recs c))

/-- The tabular records whose county name matches no boundary polygon; they
appear in no popup. -/
def dropped_records (counties : List String) (recs : List CbrsRecord) :
    List CbrsRecord :=
  recs.filter (fun r => !(counties.contains r.county_name))

/-- Total number of records joined across all county popups. -/
def joined_total (counties : List String) (recs : List CbrsRecord) : Nat :=
  ((county_popups counties recs).map (fun p => p.2.length)).sum

/-! ## Coverage radii (the nested `degrees_per_mile` and the ring radii) -/

/-- `degrees_per_mile` of `create_map_fcc_towers`:
`miles / (69.0 * math.cos(math.radians(lat)))`, over the reals. -/
noncomputable def degrees_per_mile (lat miles : Real) : Real :=
  miles / (69.0 * Real.cos (lat * Real.pi / 180))

/-- The coverage-ring radius in meters:
`degrees_per_mile(lat, miles) * 111000`, exactly as computed for both the
2-mile and the 5-mile circles. -/
noncomputable def ring_radius_m (lat miles : Real) : Real :=
  degrees_per_mile lat miles * 111000

/-! ## Concrete inputs used to evaluate the model -/

/-- A region bundle supplying only the four required datasets: boundary,
county outline, primary eligibility points and a density grid; every
optional source, the antenna file included, is absent. -/
def four_dataset_inputs : MapInputs :=
  { state_name := "Vermont"
    county_names := ["Addison"]
    round1 := [((44 : Rat), (-73 : Rat))]
    round2 := none
    cai := none
    cci_ds := none
    cci_fiber := none
    grid_counts := [3, 12]
    wisp_names := []
    towers := none }

/-- A bundle whose WISP folder holds one file, "Zeta Net", matching no entry
of the `wisp_colors` dictionary, and whose antenna file is present but
empty. -/
def unmatched_wisp_inputs : MapInputs :=
  { state_name := "Vermont"
    county_names := ["Addison"]
    round1 := [((44 : Rat), (-73 : Rat))]
    round2 := none
    cai := none
    cci_ds := none
    cci_fiber := none
    grid_counts := [3]
    wisp_names := ["Zeta Net"]
    towers := some [] }

/-- A bundle whose WISP folder holds one file, "Verizon East", matched by
the `wisp_colors` dictionary. -/
def matched_wisp_inputs : MapInputs :=
  { unmatched_wisp_inputs with wisp_names := ["Verizon East"] }

/-- A single antenna record categorized "Other". -/
def sample_other_tower : Tower :=
  { grouped_entity := "Other", lat := (44 : Rat), lon := (-73 : Rat) }

/-- A bundle whose antenna file holds exactly one record, categorized
"Other", so the SBA, American Towers and Crown Castle categories all have
zero records. -/
def one_other_tower_inputs : MapInputs :=
  { unmatched_wisp_inputs with
    wisp_names := ["Verizon East"]
    towers := some [sample_other_tower] }

/-- A one-county boundary set for the CBRS join examples. -/
def demo_counties : List String := ["Addison"]

/-- A CBRS table with one matched record. -/
def demo_cbrs_matched : List CbrsRecord :=
  [⟨"1", "Addison", "Bidder A", "VT"⟩]

/-- The same table with one additional record whose county matches no
boundary polygon. -/
def demo_cbrs_extra : List CbrsRecord :=
  [⟨"1", "Addison", "Bidder A", "VT"⟩, ⟨"2", "Nowhere", "Bidder B", "VT"⟩]

/-! ## Lemmas about the join -/

lemma joined_total_nil (counties : List String) : joined_total counties [] = 0 := by
  induction counties with
  | nil => rfl
  | cons c cs ih =>
    simp [joined_total, county_popups, cbrs_group] at *
    exact ih

lemma joined_total_county_cons (c : String) (cs : List String)
    (recs : List CbrsRecord) :
    joined_total (c :: cs) recs = (cbrs_group recs c).length + joined_total cs recs := by
  simp [joined_total, county_popups]

lemma joined_total_cons (counties : List String) (x : CbrsRecord)
    (recs : List CbrsRecord) :
    joined_total counties (x :: recs) =
      counties.countP (fun c => x.county_name == c) + joined_total counties recs := by
  induction counties with
  | nil => rfl
  | cons c cs ih =>
    rw [joined_total_county_cons, joined_total_county_cons, ih, List.countP_cons]
    simp only [cbrs_group, List.filter_cons]
    by_cases h : x.county_name == c <;> simp [h] <;> omega

lemma countP_eq_count (counties : List String) (nm : String) :
    counties.countP (fun c => nm == c) = counties.count nm := by
  unfold List.count
  exact List.countP_congr (fun c _ => by
    constructor
    · intro h; simpa [beq_iff_eq] using (by simpa [beq_iff_eq] using h : nm = c).symm
    · intro h; simpa [beq_iff_eq] using (by simpa [beq_iff_eq] using h : c = nm).symm)

/-! ## Lemmas about the layer composition -/

lemma wisp_shape (ns : List String) (s : List Nat) :
    (add_wisp_layers ns s).map (fun l => (l.name, l.visible)) =
      ns.map (fun n => ("WISP - " ++ n, false)) := by
  induction ns generalizing s with
  | nil => rfl
  | cons n ns ih =>
    cases h : wisp_color_match n <;> simp [add_wisp_layers, h, ih]

lemma wisp_names_eq (ns : List String) (s : List Nat) :
    (add_wisp_layers ns s).map (fun l => l.name) =
      ns.map (fun n => "WISP - " ++ n) := by
  induction ns generalizing s with
  | nil => rfl
  | cons n ns ih =>
    cases h : wisp_color_match n <;> simp [add_wisp_layers, h, ih]

lemma wisp_const (ns : List String) (s1 s2 : List Nat)
    (h : ∀ n ∈ ns, (wisp_color_match n).isSome) :
    add_wisp_layers ns s1 = add_wisp_layers ns s2 := by
  induction ns generalizing s1 s2 with
  | nil => rfl
  | cons n ns ih =>
    cases hm : wisp_color_match n with
    | some c =>
      simp only [add_wisp_layers, hm]
      exact congrArg _ (ih s1 s2 (fun x hx => h x (by simp [hx])))
    | none => exact absurd (h n (by simp)) (by simp [hm])

lemma mem_bead_names (pts : List (Rat × Rat)) (nm lname color : String) (v : Bool)
    (h : nm ∈ (add_bead_locations_layer pts lname color v).map (fun l => l.name)) :
    nm = lname ∧ pts ≠ [] := by
  unfold add_bead_locations_layer at h
  by_cases he : pts.isEmpty
  · rw [if_pos he] at h; simp at h
  · rw [if_neg he] at h
    simp at h
    exact ⟨h, by simpa [List.isEmpty_iff] using he⟩

lemma mem_grid_names (counts : List Nat) (nm : String)
    (h : nm ∈ (grid_analysis_layers counts).map (fun l => l.name)) :
    nm ∈ grid_name_list := by
  rcases List.mem_map.mp h with ⟨l, hl, rfl⟩
  rcases List.mem_filterMap.mp hl with ⟨e, he, hee⟩
  split_ifs at hee with hc
  rw [Option.some.injEq] at hee
  rw [← hee]
  exact List.mem_map_of_mem _ he

lemma mem_wisp_names (ns : List String) (s : List Nat) (nm : String)
    (h : nm ∈ (add_wisp_layers ns s).map (fun l => l.name)) :
    ∃ w, w ∈ ns ∧ nm = "WISP - " ++ w := by
  rw [wisp_names_eq] at h
  rcases List.mem_map.mp h with ⟨w, hw, rfl⟩
  exact ⟨w, hw, rfl⟩

lemma wisp_layer_name_head (w : String) :
    ("WISP - " ++ w).data.head? = some 'W' := by
  rw [String.data_append]
  rfl

lemma mem_namesOf_create (inp : MapInputs) (r : List Nat) (nm : String)
    (h : nm ∈ namesOf (create_map_fcc_towers inp r)) :
    nm = "State Outline" ∨ nm = "County Outline" ∨
    (nm = round1_layer_name inp ∧ inp.round1 ≠ []) ∨
    (nm = "BEAD Eligible Locations Round 2" ∧ ∃ l2, inp.round2 = some l2 ∧ l2 ≠ []) ∨
    nm = "BEAD Eligible CAIs" ∨
    nm = "CCI DSL" ∨ nm = "CCI Fiber" ∨
    nm ∈ grid_name_list ∨
    (∃ w, w ∈ inp.wisp_names ∧ nm = "WISP - " ++ w) ∨
    nm ∈ antenna_layers.map (fun l => l.name) := by
  cases ht : inp.towers with
  | none => simp [create_map_fcc_towers, ht, namesOf] at h
  | some ts =>
    simp only [create_map_fcc_towers, ht, namesOf, List.map_append, List.mem_append] at h
    rcases h with ((((hb | hbead) | hcci) | hgrid) | hwisp) | hant
    · simp only [boundary_layers, List.map_cons, List.map_nil, List.mem_cons,
        List.not_mem_nil, or_false] at hb
      tauto
    · simp only [bead_layers, List.map_append, List.mem_append] at hbead
      rcases hbead with (h1 | h2) | h3
      · exact Or.inr (Or.inr (Or.inl (mem_bead_names _ _ _ _ _ h1)))
      · cases hr2 : inp.round2 with
        | none => rw [hr2] at h2; simp at h2
        | some l2 =>
          rw [hr2] at h2
          rcases mem_bead_names _ _ _ _ _ h2 with ⟨hnm, hne⟩
          exact Or.inr (Or.inr (Or.inr (Or.inl ⟨hnm, l2, rfl, hne⟩)))
      · cases hcai : inp.cai with
        | none => rw [hcai] at h3; simp at h3
        | some lc =>
          rw [hcai] at h3
          exact Or.inr (Or.inr (Or.inr (Or.inr (Or.inl (mem_bead_names _ _ _ _ _ h3).1))))
    · unfold add_cci_layers at hcci
      split_ifs at hcci with hcond
      · cases hds : inp.cci_ds <;> cases hf : inp.cci_fiber <;>
          rw [hds, hf] at hcci <;> simp at hcci <;> tauto
      · simp at hcci
    · exact Or.inr (Or.inr (Or.inr (Or.inr (Or.inr (Or.inr (Or.inr (Or.inl
        (mem_grid_names _ _ hgrid))))))))
    · exact Or.inr (Or.inr (Or.inr (Or.inr (Or.inr (Or.inr (Or.inr (Or.inr (Or.inl
        (mem_wisp_names _ _ _ hwisp)))))))))
    · exact Or.inr (Or.inr (Or.inr (Or.inr (Or.inr (Or.inr (Or.inr (Or.inr (Or.inr hant))))))))

lemma not_mem_namesOf_of_static (inp : MapInputs) (r : List Nat) (nm : String)
    (h1 : nm ≠ "State Outline") (h2 : nm ≠ "County Outline")
    (h3 : nm ≠ "BEAD Eligible Locations Round 1") (h4 : nm ≠ "BEAD Eligible Locations")
    (h5 : nm ≠ "BEAD Eligible Locations Round 2") (h6 : nm ≠ "BEAD Eligible CAIs")
    (h7 : nm ≠ "CCI DSL") (h8 : nm ≠ "CCI Fiber")
    (h9 : nm ∉ grid_name_list)
    (h10 : nm ∉ antenna_layers.map (fun l => l.name))
    (h11 : nm.data.head? ≠ some 'W') :
    nm ∉ namesOf (create_map_fcc_towers inp r) := by
  intro hmem
  rcases mem_namesOf_create inp r _ hmem with h | h | h | h | h | h | h | h | h | h
  · exact h1 h
  · exact h2 h
  · rcases h with ⟨hh, _⟩
    unfold round1_layer_name at hh
    split_ifs at hh
    · exact h3 hh
    · exact h4 hh
  · exact h5 h.1
  · exact h6 h
  · exact h7 h
  · exact h8 h
  · exact h9 h
  · rcases h with ⟨w, _, hw⟩
    exact h11 (hw ▸ wisp_layer_name_head w)
  · exact h10 h

lemma filterMap_sublist_map {α β : Type} (f : α → Option β) (g : α → β) (l : List α)
    (h : ∀ e ∈ l, f e = none ∨ f e = some (g e)) :
    (l.filterMap f).Sublist (l.map g) := by
  induction l with
  | nil => simp
  | cons x xs ih =>
    rcases h x (by simp) with hx | hx
    · rw [List.map_cons, List.filterMap_cons, hx]
      exact (ih (fun e he => h e (by simp [he]))).cons _
    · rw [List.map_cons, List.filterMap_cons, hx]
      exact (ih (fun e he => h e (by simp [he]))).cons₂ _

lemma grid_layer_mins_sorted (counts : List Nat) :
    List.Sorted (· < ·) (grid_layer_mins counts) := by
  have hsub : (grid_layer_mins counts).Sublist (range_dict.map (fun e => e.1)) := by
    apply filterMap_sublist_map
    intro e _
    by_cases hc : (counts.filter (fun pc => decide (e.1 ≤ pc ∧ pc < e.2.1))).length = 0
    · exact Or.inl (if_pos hc)
    · exact Or.inr (if_neg hc)
  exact List.Pairwise.sublist hsub (by decide)

/-! ## The claims -/

/-- C1: the code evaluated on the claimed bucket probes.  The five finite
probes of the claim agree with the code, but the top bucket of `range_dict`
is `(100, 50000)`, not unbounded: a density cell with `point_count`
10_000_000 matches no bucket at all and is dropped from every grid layer,
including the one the code itself labels "Grid Layer (100+ Locations)". -/
theorem C1_bucket_ranges :
    bucketAssign 1 = some 0 ∧ bucketAssign 4 = some 0 ∧ bucketAssign 5 = some 1 ∧
    bucketAssign 99 = some 6 ∧ bucketAssign 100 = some 7 ∧
    bucketAssign 49999 = some 7 ∧
    bucketAssign 50000 = none ∧ bucketAssign 10000000 = none ∧
    matchingBuckets 10000000 = [] ∧
    grid_analysis_layers [10000000] = [] := by decide

/-- C2: a region bundle supplying only the four required datasets (no
antenna file) does not complete: the unconditional feature-group attachment
block dereferences `fg_antennas`, which is only assigned inside the antenna
branch, so the build aborts with an UnboundLocalError instead of emitting
the boundary, subdivision, eligibility and density layers. -/
theorem C2_crash_without_antenna_file :
    create_map_fcc_towers four_dataset_inputs [] =
      Except.error unbound_local_fg_antennas := rfl

/-- C3 (amended): the composition is deterministic in everything except the
colors of WISP overlays whose names miss the `wisp_colors` dictionary: the
(name, visibility) shape of the output never depends on the pseudo-random
stream, and when every WISP name is matched by the dictionary the whole
output, colors included, is a function of the inputs alone. -/
theorem C3_deterministic_shape :
    (∀ inp r1 r2, shapeOf (create_map_fcc_towers inp r1)
      = shapeOf (create_map_fcc_towers inp r2)) ∧
    (∀ inp r1 r2, (∀ w ∈ inp.wisp_names, (wisp_color_match w).isSome) →
      create_map_fcc_towers inp r1 = create_map_fcc_towers inp r2) := by
  constructor
  · intro inp r1 r2
    cases ht : inp.towers with
    | none => simp [create_map_fcc_towers, ht]
    | some ts =>
      simp only [create_map_fcc_towers, ht, shapeOf, List.map_append]
      rw [wisp_shape, wisp_shape]
  · intro inp r1 r2 h
    cases ht : inp.towers with
    | none => simp [create_map_fcc_towers, ht]
    | some ts =>
      simp only [create_map_fcc_towers, ht]
      rw [wisp_const inp.wisp_names r1 r2 h]

/-- C3 witness: with the single WISP name "Verizon East", which the color
dictionary matches, two runs with different random streams build identical
layer lists. -/
theorem C3_witness :
    create_map_fcc_towers matched_wisp_inputs [0]
      = create_map_fcc_towers matched_wisp_inputs [5] :=
  C3_deterministic_shape.2 matched_wisp_inputs [0] [5] (by decide)

/-- C3 counterexample: with the unmatched WISP name "Zeta Net" the composed
layer list depends on the pseudo-random draw, so two runs over identical
inputs can differ in the WISP layer's color. -/
theorem C3_counterexample :
    (create_map_fcc_towers unmatched_wisp_inputs [0]).toOption
      ≠ (create_map_fcc_towers unmatched_wisp_inputs [1]).toOption := by decide

/-- C4 (amended): an empty or absent secondary-round dataset yields no
Round 2 layer at all; but whenever an antenna file is present, all twelve
per-category infrastructure marker and coverage-ring layers are attached to
the map unconditionally, including for categories with zero records. -/
theorem C4_layer_emission : ∀ (inp : MapInputs) (r : List Nat),
    ((inp.round2 = none ∨ inp.round2 = some []) →
      "BEAD Eligible Locations Round 2" ∉ namesOf (create_map_fcc_towers inp r)) ∧
    (∀ ts, inp.towers = some ts →
      ∀ l ∈ antenna_layers, l.name ∈ namesOf (create_map_fcc_towers inp r)) := by
  intro inp r
  constructor
  · intro hr2 hmem
    rcases mem_namesOf_create inp r _ hmem with h | h | h | h | h | h | h | h | h | h
    · exact absurd h (by decide)
    · exact absurd h (by decide)
    · rcases h with ⟨hh, _⟩
      unfold round1_layer_name at hh
      split_ifs at hh
      · exact absurd hh (by decide)
      · exact absurd hh (by decide)
    · rcases h with ⟨_, l2, hsome, hne⟩
      rcases hr2 with hr2 | hr2
      · rw [hr2] at hsome; exact Option.noConfusion hsome
      · rw [hr2] at hsome
        exact hne (Option.some.injEq _ _ ▸ hsome).symm
    · exact absurd h (by decide)
    · exact absurd h (by decide)
    · exact absurd h (by decide)
    · exact absurd h (by decide)
    · rcases h with ⟨w, _, hw⟩
      exact absurd (hw ▸ wisp_layer_name_head w) (by decide)
    · exact absurd h (by decide)
  · intro ts hts l hl
    simp only [create_map_fcc_towers, hts, namesOf, List.map_append, List.mem_append]
    exact Or.inr (List.mem_map_of_mem _ hl)

/-- C4 witness: the four-dataset bundle has no Round 2 file, and its build
indeed carries no Round 2 layer. -/
theorem C4_witness :
    "BEAD Eligible Locations Round 2"
      ∉ namesOf (create_map_fcc_towers four_dataset_inputs []) :=
  (C4_layer_emission four_dataset_inputs []).1 (Or.inl rfl)

/-- C4 counterexample: with an antenna file holding a single "Other" tower,
the SBA category has zero records, yet its marker layer and both of its
coverage-ring layers are in the emitted layer list — empty layers with no
backing feature. -/
theorem C4_counterexample :
    "Antenna Locations - SBA Towers"
      ∈ namesOf (create_map_fcc_towers one_other_tower_inputs []) ∧
    "SBA Towers - Coverage 2 Mile"
      ∈ namesOf (create_map_fcc_towers one_other_tower_inputs []) ∧
    "SBA Towers - Coverage 5 Mile"
      ∈ namesOf (create_map_fcc_towers one_other_tower_inputs []) ∧
    sba_tower_data [sample_other_tower] = [] := by decide

/-- C5 (amended): the emitted order is boundaries, then BEAD point layers,
then Maine-only CCI overlays, then density-bucket layers in ascending
count order, then WISP overlay layers, and LAST the per-category
infrastructure groups, each category contributing its marker layer
immediately followed by its near and far coverage rings (so WISP overlays
are not last, and markers and rings are interleaved per category). -/
theorem C5_actual_order :
    ∀ (inp : MapInputs) (r : List Nat) (ts : List Tower), inp.towers = some ts →
    create_map_fcc_towers inp r = Except.ok
      (boundary_layers ++ bead_layers inp ++ add_cci_layers inp
        ++ grid_analysis_layers inp.grid_counts
        ++ add_wisp_layers inp.wisp_names r ++ antenna_layers) ∧
    List.Sorted (· < ·) (grid_layer_mins inp.grid_counts) ∧
    (add_wisp_layers inp.wisp_names r).map (fun l => l.name)
      = inp.wisp_names.map (fun n => "WISP - " ++ n) := by
  intro inp r ts hts
  exact ⟨by simp [create_map_fcc_towers, hts], grid_layer_mins_sorted _,
    wisp_names_eq _ _⟩

/-- C5 witness: the density buckets of a concrete build come out in
ascending order. -/
theorem C5_witness :
    List.Sorted (· < ·) (grid_layer_mins one_other_tower_inputs.grid_counts) :=
  (C5_actual_order one_other_tower_inputs [] [sample_other_tower] rfl).2.1

/-- C5 counterexample: in a concrete build the WISP overlay layer appears
at a strictly smaller index than the infrastructure marker layers, and the
"Other" coverage ring appears before the "American Towers" marker layer —
refuting both the overlays-last and the markers-before-rings ordering the
claim states. -/
theorem C5_counterexample :
    "WISP - Verizon East" ∈ namesOf (create_map_fcc_towers one_other_tower_inputs []) ∧
    "Antenna Locations - Other"
      ∈ namesOf (create_map_fcc_towers one_other_tower_inputs []) ∧
    (namesOf (create_map_fcc_towers one_other_tower_inputs [])).indexOf
        "WISP - Verizon East"
      < (namesOf (create_map_fcc_towers one_other_tower_inputs [])).indexOf
        "Antenna Locations - Other" ∧
    (namesOf (create_map_fcc_towers one_other_tower_inputs [])).indexOf
        "Other - Coverage 2 Mile"
      < (namesOf (create_map_fcc_towers one_other_tower_inputs [])).indexOf
        "Antenna Locations - American Towers" := by decide

/-- C6: the coverage-ring radius is computed exactly as
degreesPerMile = miles / (69.0 * cos(latitudeRadians)) and
radiusMeters = degreesPerMile * 111000; at latitude 0 the 2-mile ring is
2/69*111000 meters and the 5-mile ring 5/69*111000 meters, and the function
is a pure deterministic function of (latitude, mileDistance). -/
theorem C6_ring_radius :
    ring_radius_m 0 2 = 2 / 69 * 111000 ∧
    ring_radius_m 0 5 = 5 / 69 * 111000 ∧
    (∀ lat miles : Real, ring_radius_m lat miles = ring_radius_m lat miles) := by
  refine ⟨?_, ?_, fun _ _ => rfl⟩ <;>
    · simp [ring_radius_m, degrees_per_mile]
      norm_num

/-- C7: the entity classifier is total and deterministic, assigns one of
exactly four categories, tries the pattern lists case-insensitively in the
fixed priority order American Towers, SBA, Crown Castle with first match
winning, sends unmatched and missing/empty names to "Other", and sends any
name containing "crown castle" (and no higher-priority pattern) to
"Crown Castle". -/
theorem C7_classifier :
    (categorize_entity none = "Other") ∧
    (categorize_entity (some "") = "Other") ∧
    (∀ s, categorize_entity (some s) = "American Towers" ∨
      categorize_entity (some s) = "SBA" ∨
      categorize_entity (some s) = "Crown Castle" ∨
      categorize_entity (some s) = "Other") ∧
    (∀ s, american_match (pyLower s) = true →
      categorize_entity (some s) = "American Towers") ∧
    (∀ s, american_match (pyLower s) = false → sba_match (pyLower s) = true →
      categorize_entity (some s) = "SBA") ∧
    (∀ s, containsSub "crown castle" (pyLower s) = true →
      american_match (pyLower s) = false → sba_match (pyLower s) = false →
      categorize_entity (some s) = "Crown Castle") ∧
    (∀ s, american_match (pyLower s) = false → sba_match (pyLower s) = false →
      crown_match (pyLower s) = false → categorize_entity (some s) = "Other") := by
  refine ⟨rfl, by decide, ?_, ?_, ?_, ?_, ?_⟩
  · intro s; simp only [categorize_entity]; split_ifs <;> tauto
  · intro s h; simp [categorize_entity, h]
  · intro s h1 h2; simp [categorize_entity, h1, h2]
  · intro s hc h1 h2
    have h3 : crown_match (pyLower s) = true := by
      simp [crown_match, crown_patterns, hc]
    simp [categorize_entity, h1, h2, h3]
  · intro s h1 h2 h3; simp [categorize_entity, h1, h2, h3]

/-- C7 witness: a mixed-case name containing "crown castle" and no
higher-priority pattern lands in the Crown Castle category. -/
theorem C7_witness :
    categorize_entity (some "CROWN Castle International Corp") = "Crown Castle" :=
  C7_classifier.2.2.2.2.2.1 "CROWN Castle International Corp"
    (by decide) (by decide) (by decide)

/-- C8 (amended): a tabular record whose county name matches no boundary
polygon appears in no county's popup list, and when the boundary names are
distinct the conservation equation dropped + joined = total holds; the code
exposes no omission counter for the dropped records. -/
theorem C8_join (counties : List String) (recs : List CbrsRecord)
    (hnd : counties.Nodup) :
    (dropped_records counties recs).length + joined_total counties recs = recs.length ∧
    (∀ r ∈ dropped_records counties recs,
      ∀ p ∈ county_popups counties recs, r ∉ p.2) := by
  constructor
  · induction recs with
    | nil => simp [dropped_records, joined_total_nil]
    | cons x recs ih =>
      rw [joined_total_cons]
      have hcnt : counties.countP (fun c => x.county_name == c) =
          if x.county_name ∈ counties then 1 else 0 := by
        rw [countP_eq_count]
        by_cases hm : x.county_name ∈ counties
        · simp [hm, List.count_eq_one_of_mem hnd hm]
        · simp [hm, List.count_eq_zero.mpr hm]
      by_cases hm : x.county_name ∈ counties
      · have hc : counties.contains x.county_name = true := List.elem_iff.mpr hm
        have hd : dropped_records counties (x :: recs) = dropped_records counties recs := by
          simp [dropped_records, List.filter_cons, hc, hm]
        rw [hd, hcnt, if_pos hm]
        simp only [List.length_cons]
        omega
      · have hc : counties.contains x.county_name = false :=
          Bool.eq_false_iff.mpr (fun h => hm (List.elem_iff.mp h))
        have hd : dropped_records counties (x :: recs) =
            x :: dropped_records counties recs := by
          simp [dropped_records, List.filter_cons, hc, hm]
        rw [hd, hcnt, if_neg hm]
        simp only [List.length_cons]
        omega
  · intro r hr p hp hrp
    have hnotin : r.county_name ∉ counties := by
      have h1 := List.of_mem_filter hr
      intro hmem
      have h2 : counties.contains r.county_name = true := List.elem_iff.mpr hmem
      rw [h2] at h1
      exact absurd h1 (by decide)
    rcases List.mem_map.mp hp with ⟨c, hc, rfl⟩
    have h2 := List.of_mem_filter hrp
    have hceq : r.county_name = c := by simpa [beq_iff_eq] using h2
    exact hnotin (hceq ▸ hc)

/-- C8 witness: conservation on a concrete table with one matched and one
unmatched record. -/
theorem C8_join_witness :
    (dropped_records demo_counties demo_cbrs_extra).length
      + joined_total demo_counties demo_cbrs_extra = demo_cbrs_extra.length :=
  (C8_join demo_counties demo_cbrs_extra (by decide)).1

/-- C8 counterexample: the built popup tables — everything of the join the
emitted artifact contains — are identical whether or not an unmatched
record was present, while the dropped counts differ; no omission counter is
computed or exposed anywhere in the artifact. -/
theorem C8_counterexample :
    county_popups demo_counties demo_cbrs_matched
      = county_popups demo_counties demo_cbrs_extra ∧
    (dropped_records demo_counties demo_cbrs_matched).length = 0 ∧
    (dropped_records demo_counties demo_cbrs_extra).length = 1 := by decide

/-- C9: for every build with an antenna file, the aggregate groups
"Antenna Coverage (2 Miles)" and "Antenna Coverage (5 Miles)" are populated
with one circle per antenna record but no layer with either name is ever in
the emitted layer list — only the per-category coverage layers appear. -/
theorem C9_aggregate_groups_not_attached :
    ∀ (inp : MapInputs) (r : List Nat) (ts : List Tower), inp.towers = some ts →
    "Antenna Coverage (2 Miles)" ∉ namesOf (create_map_fcc_towers inp r) ∧
    "Antenna Coverage (5 Miles)" ∉ namesOf (create_map_fcc_towers inp r) ∧
    (fg_coverage2_circles ts).length = ts.length ∧
    (fg_coverage5_circles ts).length = ts.length := by
  intro inp r ts hts
  refine ⟨?_, ?_, by simp [fg_coverage2_circles], by simp [fg_coverage5_circles]⟩
  · exact not_mem_namesOf_of_static inp r _ (by decide) (by decide) (by decide)
      (by decide) (by decide) (by decide) (by decide) (by decide) (by decide)
      (by decide) (by decide)
  · exact not_mem_namesOf_of_static inp r _ (by decide) (by decide) (by decide)
      (by decide) (by decide) (by decide) (by decide) (by decide) (by decide)
      (by decide) (by decide)

/-- C9 witness: concrete build with one antenna record. -/
theorem C9_witness :
    "Antenna Coverage (2 Miles)"
      ∉ namesOf (create_map_fcc_towers one_other_tower_inputs []) ∧
    (fg_coverage2_circles [sample_other_tower]).length = 1 :=
  ⟨(C9_aggregate_groups_not_attached one_other_tower_inputs [] [sample_other_tower] rfl).1,
    (C9_aggregate_groups_not_attached one_other_tower_inputs [] [sample_other_tower] rfl).2.2.1⟩

/-- C10: because "amt" is in the American Tower pattern list and that list
is tried first, every name containing "amt" anywhere, case-insensitively,
is classified "American Towers", whatever else the name contains. -/
theorem C10_amt_substring (s : String)
    (h : containsSub "amt" (pyLower s) = true) :
    categorize_entity (some s) = "American Towers" := by
  have ham : american_match (pyLower s) = true := by
    simp [american_match, american_patterns, h]
  simp [categorize_entity, ham]

/-- C10 witness: a name containing "amt", "sba" and "crown castle" at once
still lands in the American Towers category. -/
theorem C10_witness :
    categorize_entity (some "AMTSBA Crown Castle LLC") = "American Towers" :=
  C10_amt_substring "AMTSBA Crown Castle LLC" (by decide)

end WebGisMap
